import Mathlib

/-!
# Vote-resolution engine of `src/routes/voteOnSponsorTime.ts` — shallow embedding

The embedding models one vote request against the rows of the database that the
handler can read or write.  Each field of `DB` corresponds to one of the SQL
queries issued by `voteOnSponsorTime`/`categoryVote` for the fixed request
parameters (UUID of the addressed segment, hashed user id, hashed IP):

* `segment`              — the `sponsorTimes` row with the requested `UUID`;
* `votesRow`             — `type` of the private `votes` row for (userID, UUID);
* `vipUsers`             — the `vipUsers` table (list of user ids);
* `userHasSubmission`    — `SELECT "userID" FROM "sponsorTimes" WHERE "userID" = ?`
                           returns a row;
* `shadowBanned`         — a `shadowBannedUsers` row for the voter exists;
* `sameIPOtherUserVote`  — a `votes` row with the same UUID and hashedIP but a
                           different userID exists;
* `warnings`             — the `warnings` rows for the voter;
* `now`                  — `Date.now()` at the time of the request;
* `videoCategoryLocked`  — the `lockCategories ⋈ sponsorTimes` query returns a row;
* `catVotes`             — the public `categoryVotes` aggregate rows for this UUID
                           (category, votes);
* `userCategoryVote`     — category of the private `categoryVotes` row for
                           (UUID, userID), if any;
* `baselineAttribution`  — userID recorded by the private baseline insert of
                           `categoryVote` (lines 215-219 of the source), if any.

External collaborators with no in-repository logic (`QueryCacher.clearVideoCache`,
webhook dispatch) are modelled as having no effect on this state, following the
spec's interface description of them as fire-and-forget side channels.
-/

namespace VoteSB

/-- One `warnings` row relevant to the voting user. -/
structure Warning where
  issueTime : Int
  enabled : Bool
  deriving DecidableEq, Repr

/-- The `sponsorTimes` row addressed by the request's UUID. -/
structure Segment where
  votes : Int
  incorrectVotes : Int
  views : Int
  locked : Bool
  userID : String
  category : String
  timeSubmitted : Int
  deriving DecidableEq, Repr

/-- Global configuration used by the handler.  `skippableCategories` stands for
the category-classification collaborator.  Modelled from the spec: the source
calls `getCategoryActionType` (utils/categoryInfo, not under src/), described in
the spec as `categoryKind(category) -> Skippable|Other`; we model it as
membership in a configured list of skippable categories. -/
structure Config where
  categoryList : List String
  skippableCategories : List String
  maxNumberOfActiveWarnings : Nat
  hoursAfterWarningExpires : Int
  deriving DecidableEq, Repr

/-- Database state visible to one vote request (see the module comment). -/
structure DB where
  segment : Option Segment
  votesRow : Option Int
  vipUsers : List String
  userHasSubmission : Bool
  shadowBanned : Bool
  sameIPOtherUserVote : Bool
  warnings : List Warning
  now : Int
  videoCategoryLocked : Bool
  catVotes : List (String × Int)
  userCategoryVote : Option String
  baselineAttribution : Option String
  deriving DecidableEq, Repr

/-- The `finalResponse` record of the handler. -/
structure FinalResponse where
  finalStatus : Nat
  finalMessage : Option String
  deriving DecidableEq, Repr

/-- Result of a request: HTTP status, body message (if one is sent) and the
database state after the request. -/
structure Outcome where
  status : Nat
  message : Option String
  db : DB
  deriving DecidableEq, Repr

/-- Message set by the moderation-lock check (source line 283). -/
def lockedMessage : String :=
  "Vote rejected: A moderator has decided that this segment is correct"

/-- Message sent when a non-privileged user upvotes a suppressed segment
(source line 297). -/
def suppressedUpvoteMessage : String :=
  "Not allowed to upvote segment with too many downvotes unless you are VIP."

/-- Message sent on warning-based rejection (source line 314). -/
def warningMessage : String :=
  "Vote rejected due to a warning from a moderator. This means that we noticed you were making some common mistakes that are not malicious, and we just want to clarify the rules. Could you please send a message in Discord or Matrix so we can further help you?"

/-- Body of the 400 answer of `categoryVote` when the segment is unknown
(source line 163). -/
def submissionMissingMessage : String := "Submission doesn\x27t exist."

/-- Body of the 400 answer of `categoryVote` for an unknown category
(source line 168). -/
def categoryMissingMessage : String := "Category doesn\x27t exist."

/-- Body of the 400 answer of `categoryVote` for a non-skippable category
(source line 172). -/
def categoryNotVotableMessage : String := "Cannot vote for this category"

/-- Error text of the 500 answer produced by the `catch` block
(source line 440). -/
def internalErrorMessage : String := "Internal error creating segment vote"

/-- The voter is in the `vipUsers` table (source line 269). -/
def isVIPUser (db : DB) (u : String) : Prop := u ∈ db.vipUsers

instance (db : DB) (u : String) : Decidable (isVIPUser db u) :=
  inferInstanceAs (Decidable (u ∈ db.vipUsers))

/-- The voter authored the addressed segment (source line 272). -/
def isOwnSubmissionUser (db : DB) (u : String) : Prop :=
  db.segment.map Segment.userID = some u

instance (db : DB) (u : String) : Decidable (isOwnSubmissionUser db u) :=
  inferInstanceAs (Decidable (db.segment.map Segment.userID = some u))

/-- The addressed segment exists and its score is at most −2
(the `voteInfo && voteInfo.votes <= -2` test, source line 295).
When the segment is missing, `getD 0` yields `0`, which is not `≤ -2`,
matching the falsy `voteInfo`. -/
def segmentSuppressed (db : DB) : Prop :=
  (db.segment.map Segment.votes).getD 0 ≤ -2

instance (db : DB) : Decidable (segmentSuppressed db) :=
  inferInstanceAs (Decidable ((db.segment.map Segment.votes).getD 0 ≤ -2))

/-- Number of warnings counted by the query of source lines 309-311:
issued after `now - hoursAfterWarningExpires` hours and still enabled. -/
def activeWarningCount (cfg : Config) (db : DB) : Nat :=
  (db.warnings.filter fun w =>
    decide (db.now - cfg.hoursAfterWarningExpires * 3600000 < w.issueTime) && w.enabled).length

/-- The moderation-lock check (source lines 274-285): performed when the voter
is not VIP and the request is not a plain upvote; rejects (status 403 with
`lockedMessage`) when the segment's `locked` flag is set or its video+category
pair is under a `lockCategories` lock. -/
def computeFinalResponse (db : DB) (u : String) (type? : Option Int) : FinalResponse :=
  if ¬ isVIPUser db u ∧ type? ≠ some 1 ∧
      (db.segment.map Segment.locked = some true ∨ db.videoCategoryLocked = true) then
    ⟨403, some lockedMessage⟩
  else
    ⟨200, none⟩

/-- Initial `incrementAmount` from the requested vote type
(source lines 327-340); `none` encodes the unrecognised-type 400 answer. -/
def incrementInit (t : Int) : Option Int :=
  if t = 1 ∨ t = 11 then some 1
  else if t = 0 ∨ t = 10 then some (-1)
  else if t = 20 then some 0
  else none

/-- The `oldIncrementAmount` computed from an existing `votes` row of stored
type `vt`, for a new request of type `t` (source lines 341-364).  The first two
branches also test the *new* type (`votesRow.type === 1 || type === 11` and
`votesRow.type === 0 || type === 10`), exactly as the source does. -/
def oldIncrementAmount (t vt : Int) : Int :=
  if vt = 1 ∨ t = 11 then 1
  else if vt = 0 ∨ t = 10 then -1
  else if vt = 2 then -4
  else if vt = 20 then 0
  else if vt < 0 then vt
  else if vt = 12 then -500
  else if vt = 13 then 500
  else 0

/-- Ceiling of `v / 2` over the integers, the value of the JavaScript
`Math.ceil(votes / 2)` for an integer `votes`. -/
def ceilHalf (v : Int) : Int := (v + 1).fdiv 2

/-- Look up the aggregate `categoryVotes` row of a category
(`select votes from "categoryVotes" where "UUID" = ? and category = ?`):
the first row whose category matches. -/
def lookupCat : List (String × Int) → String → Option Int
  | [], _ => none
  | p :: l, c => if p.1 = c then some p.2 else lookupCat l c

/-- Add `d` to the votes of every aggregate row of category `c`
(`update "categoryVotes" set "votes" = "votes" + ? where ... "category" = ?`). -/
def updateCat (l : List (String × Int)) (c : String) (d : Int) : List (String × Int) :=
  l.map fun p => if p.1 = c then (p.1, p.2 + d) else p

/-- Insert an aggregate row
(`insert into "categoryVotes" ("UUID", "category", "votes") values (?, ?, ?)`). -/
def insertCat (l : List (String × Int)) (c : String) (v : Int) : List (String × Int) :=
  l ++ [(c, v)]

/-- The aggregate-tally updates of `categoryVote` (source lines 183-201):
add `va` to the candidate category's row (updating it when present, inserting
it otherwise), then, when the voter had a previous category vote, subtract
`va` from that previous category's row. -/
def categoryTallies (cvs : List (String × Int)) (cat : String) (prev? : Option String)
    (va : Int) : List (String × Int) :=
  let cv1 :=
    if (lookupCat cvs cat).isSome = true then updateCat cvs cat va
    else insertCat cvs cat va
  match prev? with
  | some prev => updateCat cv1 prev (-va)
  | none => cv1

/-- The write phase of the score-vote path (source lines 384-421): the
`ableToVote` test, the `votes` upsert, the counter increment and the VIP
lock/unlock updates.  `normalFamily` tells whether `voteTypeEnum` is
`voteTypes.normal` (counter `votes`) or `voteTypes.incorrect`
(counter `incorrectVotes`). -/
def applyScoreVote (db : DB) (u : String) (fr : FinalResponse)
    (normalFamily : Bool) (inc newType old : Int) : Outcome :=
  if isVIPUser db u ∨
      (¬ (isOwnSubmissionUser db u ∧ 0 < inc) ∧
        db.userHasSubmission = true ∧ db.shadowBanned = false ∧
        db.sameIPOtherUserVote = false ∧ fr.finalStatus = 200) then
    let db1 := { db with votesRow := some newType }
    let db2 := { db1 with segment := db1.segment.map fun s =>
        match normalFamily with
        | true => { s with votes := s.votes + (inc - old) }
        | false => { s with incorrectVotes := s.incorrectVotes + (inc - old) } }
    let db3 :=
      if isVIPUser db u ∧ 0 < inc ∧ normalFamily = true then
        { db2 with segment := db2.segment.map fun s => { s with locked := true } }
      else if isVIPUser db u ∧ inc < 0 ∧ normalFamily = true then
        { db2 with segment := db2.segment.map fun s => { s with locked := false } }
      else db2
    ⟨fr.finalStatus, fr.finalMessage, db3⟩
  else
    ⟨fr.finalStatus, fr.finalMessage, db⟩

/-- The body of the `try` block of the score-vote path (source lines 319-421):
initial increment, old increment from the vote ledger, the VIP/own-submission
reweighting (lines 370-382) and the write phase.  A VIP/own plain downvote on a
missing segment dereferences `videoInfo.votes` of `undefined`, which throws and
is answered with status 500 by the `catch` block. -/
def scoreVoteCore (db : DB) (u : String) (t : Int) (fr : FinalResponse) : Outcome :=
  match incrementInit t with
  | none => ⟨400, none, db⟩
  | some inc0 =>
    let old : Int :=
      match db.votesRow with
      | none => 0
      | some vt => oldIncrementAmount t vt
    if t = 0 ∨ t = 1 then
      if (isVIPUser db u ∨ isOwnSubmissionUser db u) ∧ inc0 < 0 then
        match db.segment with
        | none => ⟨500, some internalErrorMessage, db⟩
        | some s =>
          applyScoreVote db u fr true (-(s.votes + 2 - old)) (-(s.votes + 2 - old)) old
      else
        applyScoreVote db u fr true inc0 t old
    else
      if isVIPUser db u ∨ isOwnSubmissionUser db u then
        applyScoreVote db u fr false (500 * inc0) (if 500 * inc0 < 0 then 12 else 13) old
      else
        applyScoreVote db u fr false inc0 t old

/-- The score-vote path (source lines 291-421): the suppressed-segment gate,
the warning gate, then the core. -/
def scoreVote (cfg : Config) (db : DB) (u : String) (t : Int) (fr : FinalResponse) : Outcome :=
  if ¬ isVIPUser db u ∧ ¬ isOwnSubmissionUser db u ∧ segmentSuppressed db ∧ t = 1 then
    ⟨403, some suppressedUpvoteMessage, db⟩
  else if ¬ isVIPUser db u ∧ ¬ isOwnSubmissionUser db u ∧ segmentSuppressed db ∧ t = 0 then
    ⟨200, none, db⟩
  else if cfg.maxNumberOfActiveWarnings ≤ activeWarningCount cfg db then
    ⟨403, some warningMessage, db⟩
  else
    scoreVoteCore db u t fr

/-- The category-vote path (`categoryVote`, source lines 148-234).  The
`ableToVote` condition is kept literally as in the source
(`isVIP || finalResponse.finalStatus === 200 || true`). -/
def categoryVote (cfg : Config) (db : DB) (u : String) (category : String)
    (fr : FinalResponse) : Outcome :=
  if db.userCategoryVote = some category then
    ⟨fr.finalStatus, none, db⟩
  else
    match db.segment with
    | none => ⟨400, some submissionMissingMessage, db⟩
    | some videoInfo =>
      if ¬ category ∈ cfg.categoryList then ⟨400, some categoryMissingMessage, db⟩
      else if ¬ category ∈ cfg.skippableCategories then
        ⟨400, some categoryNotVotableMessage, db⟩
      else
        let voteAmount : Int := if isVIPUser db u then 500 else 1
        if isVIPUser db u ∨ fr.finalStatus = 200 ∨ True then
          let cv2 := categoryTallies db.catVotes category db.userCategoryVote voteAmount
          let currentCategoryInfo := lookupCat cv2 videoInfo.category
          let startingVotes : Int := if isVIPUser db videoInfo.userID then 10000 else 1
          let currentCategoryCount : Int := currentCategoryInfo.getD startingVotes
          let cv3 :=
            if currentCategoryInfo = none then
              insertCat cv2 videoInfo.category currentCategoryCount
            else cv2
          let attr2 :=
            if currentCategoryInfo = none then some videoInfo.userID
            else db.baselineAttribution
          let nextCategoryCount : Int :=
            (lookupCat db.catVotes category).getD 0 + voteAmount
          let seg2 : Segment :=
            if max (ceilHalf videoInfo.votes) 2 ≤ nextCategoryCount - currentCategoryCount ∨
                isVIPUser db u ∨ isOwnSubmissionUser db u then
              { videoInfo with category := category }
            else videoInfo
          ⟨fr.finalStatus, none,
            { db with
                segment := some seg2
                catVotes := cv3
                userCategoryVote := some category
                baselineAttribution := attr2 }⟩
        else
          ⟨fr.finalStatus, none, db⟩

/-- The request handler `voteOnSponsorTime` (source lines 240-442) for a
well-formed UUID and userID: parameter validation of the vote kind, the
moderation-lock check, then dispatch to the category path or the score path. -/
def voteOnSponsorTime (cfg : Config) (db : DB) (userID : String)
    (type? : Option Int) (category? : Option String) : Outcome :=
  match type?, category? with
  | none, none => ⟨400, none, db⟩
  | none, some category =>
    categoryVote cfg db userID category (computeFinalResponse db userID none)
  | some t, _ =>
    scoreVote cfg db userID t (computeFinalResponse db userID (some t))

/-- The stored-type-to-weight map exactly as the specification describes it:
a function of the stored type code of the existing vote record alone.
Modelled from the spec's words for comparison with `oldIncrementAmount`
(claim C6): stored 1 ↦ +1, 0 ↦ −1, 2 ↦ −4, 20 ↦ 0, negative ↦ itself,
12 ↦ −500, 13 ↦ +500. -/
def specStoredWeight (vt : Int) : Int :=
  if vt = 1 then 1
  else if vt = 0 then -1
  else if vt = 2 then -4
  else if vt = 20 then 0
  else if vt < 0 then vt
  else if vt = 12 then -500
  else if vt = 13 then 500
  else 0

/-! ## Concrete fixtures used by witnesses and counterexamples -/

/-- Example configuration: two skippable categories, three active warnings
allowed, 720-hour warning window. -/
def cfgEx : Config := ⟨["sponsor", "selfpromo"], ["sponsor", "selfpromo"], 3, 720⟩

/-- Example segment: fresh (no votes), unlocked, owned by `"owner"`,
category `"sponsor"`. -/
def segEx : Segment := ⟨0, 0, 10, false, "owner", "sponsor", 5⟩

/-- Example database: the segment above, no prior votes of the requester,
one VIP user `"vip"`, requester has a submission and is neither shadow-banned
nor IP-duplicated, no warnings, no category votes. -/
def dbEx : DB := ⟨some segEx, none, ["vip"], true, false, false, [], 1000, false, [], none, none⟩

/-- `dbEx` with the segment's score at 1 (after one plain upvote). -/
def dbScoreOne : DB := { dbEx with segment := some { segEx with votes := 1 } }

/-- `dbEx` with the segment lock-protected. -/
def dbLocked : DB := { dbEx with segment := some { segEx with locked := true } }

/-- `dbEx` with three active enabled warnings against the requester. -/
def dbWarned : DB := { dbEx with warnings := [⟨999, true⟩, ⟨998, true⟩, ⟨997, true⟩] }

/-- `dbEx` with a suppressed segment (score −3). -/
def dbSuppressed : DB := { dbEx with segment := some { segEx with votes := -3 } }

/-- `dbEx` with a recorded plain downvote (stored type 0) of the requester. -/
def dbPriorDownvote : DB := { dbEx with votesRow := some 0 }

/-! ## Association-list lemmas for the `categoryVotes` aggregate -/

theorem lookupCat_insert_self (l : List (String × Int)) (c : String) (v : Int)
    (h : lookupCat l c = none) : lookupCat (insertCat l c v) c = some v := by
  induction l with
  | nil => simp [lookupCat, insertCat]
  | cons p l ih =>
    by_cases hp : p.1 = c
    · simp [lookupCat, hp] at h
    · simp only [lookupCat, hp, if_false, insertCat, List.cons_append] at h ⊢
      simpa [lookupCat, hp] using ih h

theorem lookupCat_insert_ne (l : List (String × Int)) (c c' : String) (v : Int)
    (h : c ≠ c') : lookupCat (insertCat l c' v) c = lookupCat l c := by
  induction l with
  | nil => simp [lookupCat, insertCat, Ne.symm h]
  | cons p l ih =>
    by_cases hp : p.1 = c
    · simp [lookupCat, insertCat, hp]
    · simpa [lookupCat, insertCat, hp] using ih

theorem lookupCat_update_self (l : List (String × Int)) (c : String) (d : Int) :
    lookupCat (updateCat l c d) c = (lookupCat l c).map fun x => x + d := by
  induction l with
  | nil => simp [lookupCat, updateCat]
  | cons p l ih =>
    by_cases hp : p.1 = c
    · simp [lookupCat, updateCat, hp]
    · simpa [lookupCat, updateCat, hp] using ih

theorem lookupCat_update_ne (l : List (String × Int)) (c c' : String) (d : Int)
    (h : c ≠ c') : lookupCat (updateCat l c' d) c = lookupCat l c := by
  induction l with
  | nil => simp [lookupCat, updateCat]
  | cons p l ih =>
    by_cases hp : p.1 = c
    · simp [lookupCat, updateCat, hp, h]
    · by_cases hp' : p.1 = c'
      · simpa [lookupCat, updateCat, hp, hp', Ne.symm h] using ih
      · simpa [lookupCat, updateCat, hp, hp'] using ih

/-- When the new request type is one of the recognised score-vote types, a
stored vote record of that same type maps back to the new initial increment:
the second identical vote reads back exactly the weight the first one wrote. -/
theorem oldIncrementAmount_self (t i : Int) (h : incrementInit t = some i) :
    oldIncrementAmount t t = i := by
  unfold incrementInit at h
  unfold oldIncrementAmount
  split_ifs at h ⊢ <;> simp_all

/-! ## Claim theorems -/

/-- C7: for a segment whose score is at or below −2 and a voter who is neither
VIP nor the segment owner, a plain upvote (type 1) is rejected with a 403
client error, and a plain downvote (type 0) is silently accepted with
status 200; in both cases the database is untouched. -/
theorem suppressed_segment_gate (cfg : Config) (db : DB) (u : String) (s : Segment)
    (hseg : db.segment = some s) (hsup : s.votes ≤ -2)
    (hv : ¬ isVIPUser db u) (ho : ¬ isOwnSubmissionUser db u) :
    voteOnSponsorTime cfg db u (some 1) none =
      ⟨403, some suppressedUpvoteMessage, db⟩ ∧
    voteOnSponsorTime cfg db u (some 0) none = ⟨200, none, db⟩ := by
  have hsup' : segmentSuppressed db := by
    simpa [segmentSuppressed, hseg] using hsup
  constructor
  · simp [voteOnSponsorTime, scoreVote, hv, ho, hsup']
  · simp [voteOnSponsorTime, scoreVote, hv, ho, hsup']

/-- Witness for C7 at a concrete suppressed segment (score −3) and a plain
non-VIP non-owner voter. -/
theorem suppressed_segment_gate_witness :
    voteOnSponsorTime cfgEx dbSuppressed "alice" (some 1) none =
      ⟨403, some suppressedUpvoteMessage, dbSuppressed⟩ ∧
    voteOnSponsorTime cfgEx dbSuppressed "alice" (some 0) none =
      ⟨200, none, dbSuppressed⟩ :=
  suppressed_segment_gate cfgEx dbSuppressed "alice" { segEx with votes := -3 }
    rfl (by decide) (by decide) (by decide)

/-- C8: a non-VIP non-owner voter whose recorded vote is a plain downvote
(stored type 0, weight −1) and who casts an eligible plain upvote (type 1)
moves the segment score counter by exactly +2; the ledger row becomes type 1. -/
theorem downvote_to_upvote_swing (cfg : Config) (db : DB) (u : String) (s : Segment)
    (hseg : db.segment = some s) (hv : ¬ isVIPUser db u)
    (ho : ¬ isOwnSubmissionUser db u) (hrow : db.votesRow = some 0)
    (hns : -2 < s.votes)
    (hw : activeWarningCount cfg db < cfg.maxNumberOfActiveWarnings)
    (hsub : db.userHasSubmission = true) (hsb : db.shadowBanned = false)
    (hip : db.sameIPOtherUserVote = false) :
    (voteOnSponsorTime cfg db u (some 1) none).db.segment.map Segment.votes =
      some (s.votes + 2) ∧
    (voteOnSponsorTime cfg db u (some 1) none).db.votesRow = some 1 := by
  have hnsup : ¬ segmentSuppressed db := by
    simp [segmentSuppressed, hseg]
    omega
  have hw' : ¬ cfg.maxNumberOfActiveWarnings ≤ activeWarningCount cfg db := by omega
  have hfr : computeFinalResponse db u (some 1) = ⟨200, none⟩ := by
    simp [computeFinalResponse]
  constructor <;>
    simp [voteOnSponsorTime, scoreVote, hnsup, hw', hfr, scoreVoteCore, incrementInit,
      hrow, oldIncrementAmount, applyScoreVote, hv, ho, hsub, hsb, hip, hseg]

/-- Witness for C8: on the example database with a recorded plain downvote,
an upvote moves the score from 0 to 2. -/
theorem downvote_to_upvote_swing_witness :
    (voteOnSponsorTime cfgEx dbPriorDownvote "alice" (some 1) none).db.segment.map
        Segment.votes = some (segEx.votes + 2) ∧
    (voteOnSponsorTime cfgEx dbPriorDownvote "alice" (some 1) none).db.votesRow =
      some 1 :=
  downvote_to_upvote_swing cfgEx dbPriorDownvote "alice" segEx rfl (by decide)
    (by decide) rfl (by decide) (by decide) rfl rfl rfl

/-- C10: a non-VIP voter who owns the segment and casts a plain upvote
(type 1) on it is ineligible: the handler answers with the gate's success
status 200 and performs no database mutation at all. -/
theorem own_upvote_noop (cfg : Config) (db : DB) (u : String) (s : Segment)
    (hseg : db.segment = some s) (hown : s.userID = u) (hv : ¬ isVIPUser db u)
    (hw : activeWarningCount cfg db < cfg.maxNumberOfActiveWarnings) :
    voteOnSponsorTime cfg db u (some 1) none = ⟨200, none, db⟩ := by
  have ho : isOwnSubmissionUser db u := by
    simp [isOwnSubmissionUser, hseg, hown]
  have hw' : ¬ cfg.maxNumberOfActiveWarnings ≤ activeWarningCount cfg db := by omega
  have hfr : computeFinalResponse db u (some 1) = ⟨200, none⟩ := by
    simp [computeFinalResponse]
  simp [voteOnSponsorTime, scoreVote, ho, hw', hfr, scoreVoteCore, incrementInit,
    applyScoreVote, hv]

/-- Witness for C10: the non-VIP owner upvoting the example segment. -/
theorem own_upvote_noop_witness :
    voteOnSponsorTime cfgEx dbEx "owner" (some 1) none = ⟨200, none, dbEx⟩ :=
  own_upvote_noop cfgEx dbEx "owner" segEx rfl rfl (by decide) (by decide)

/-- C1 (amended): on a segment with score 1, a VIP plain downvote (type 0)
with no prior vote record is reweighted to an increment of −(1+2−0) = −3,
which is stored as the new ledger type; the stored vote counter becomes
1 + (−3) = −2 and the segment's lock flag is cleared. -/
theorem vip_plain_downvote_floor (cfg : Config) (db : DB) (u : String) (s : Segment)
    (hseg : db.segment = some s) (hv1 : s.votes = 1) (hvip : isVIPUser db u)
    (hrow : db.votesRow = none)
    (hw : activeWarningCount cfg db < cfg.maxNumberOfActiveWarnings) :
    voteOnSponsorTime cfg db u (some 0) none =
      ⟨200, none, { db with
        votesRow := some (-3)
        segment := some { s with votes := -2, locked := false } }⟩ := by
  have hw' : ¬ cfg.maxNumberOfActiveWarnings ≤ activeWarningCount cfg db := by omega
  have hfr : computeFinalResponse db u (some 0) = ⟨200, none⟩ := by
    simp [computeFinalResponse, hvip]
  simp [voteOnSponsorTime, scoreVote, hvip, hw', hfr, scoreVoteCore, incrementInit,
    hrow, hseg, applyScoreVote, hv1]

/-- Witness for C1 (amended) on the concrete database of the spec's example. -/
theorem vip_plain_downvote_floor_witness :
    voteOnSponsorTime cfgEx dbScoreOne "vip" (some 0) none =
      ⟨200, none, { dbScoreOne with
        votesRow := some (-3)
        segment := some { { segEx with votes := 1 } with
          votes := -2
          locked := false } }⟩ :=
  vip_plain_downvote_floor cfgEx dbScoreOne "vip" { segEx with votes := 1 } rfl rfl
    (by decide) rfl (by decide)

/-- C1 counterexample: at the exact input of the claim (segment score 1, VIP
plain downvote, no previous vote) the stored vote counter ends at −2, not at
−3 as claimed. -/
theorem vip_plain_downvote_counter_not_minus_three :
    (voteOnSponsorTime cfgEx dbScoreOne "vip" (some 0) none).db.segment.map
        Segment.votes = some (-2) ∧
    (voteOnSponsorTime cfgEx dbScoreOne "vip" (some 0) none).db.segment.map
        Segment.votes ≠ some (-3) := by
  decide

/-- C6 counterexample: the previous-weight computation is not a function of
the stored type code alone.  A stored VIP-incorrect-upvote record (type 13)
yields +500 when the new request is a plain downvote, but +1 when the new
request is type 11 — so a new request type changes the result, and the claimed
stored-13 ↦ +500 mapping fails. -/
theorem oldIncrementAmount_depends_on_new_type :
    oldIncrementAmount 11 13 = 1 ∧
    oldIncrementAmount 0 13 = 500 ∧
    oldIncrementAmount 11 13 ≠ oldIncrementAmount 0 13 ∧
    oldIncrementAmount 11 13 ≠ specStoredWeight 13 := by
  decide

/-- C6 (amended): the previous-weight computation agrees with the
stored-code-only map of the claim whenever the new request type is neither 10
nor 11; when the new request type is 11 it returns +1 regardless of the stored
code, and when it is 10 it returns +1 for a stored 1 and −1 for every other
stored code. -/
theorem oldIncrementAmount_characterisation (t vt : Int) :
    (t ≠ 10 ∧ t ≠ 11 → oldIncrementAmount t vt = specStoredWeight vt) ∧
    (t = 11 → oldIncrementAmount t vt = 1) ∧
    (t = 10 → oldIncrementAmount t vt = if vt = 1 then 1 else -1) := by
  refine ⟨fun h => ?_, fun h => ?_, fun h => ?_⟩
  · unfold oldIncrementAmount specStoredWeight
    rcases h with ⟨h10, h11⟩
    split_ifs <;> simp_all
  · subst h
    unfold oldIncrementAmount
    simp
  · subst h
    unfold oldIncrementAmount
    split_ifs <;> simp_all

/-- Witness for C6 (amended): a plain-downvote request reads a stored type 13
back as the stored-code-only weight +500. -/
theorem oldIncrementAmount_characterisation_witness :
    oldIncrementAmount 0 13 = specStoredWeight 13 :=
  (oldIncrementAmount_characterisation 0 13).1 (by decide)

/-- Updating the rows of any category never creates a row: a category with no
aggregate row still has none afterwards. -/
theorem lookupCat_update_none (l : List (String × Int)) (c' : String) (d : Int)
    (c : String) (h : lookupCat l c = none) :
    lookupCat (updateCat l c' d) c = none := by
  induction l with
  | nil => simp [lookupCat, updateCat]
  | cons p l ih =>
    by_cases hp : p.1 = c
    · simp [lookupCat, hp] at h
    · by_cases hp' : p.1 = c'
      · have hcc : ¬ c' = c := hp' ▸ hp
        have := ih (by simpa [lookupCat, hp] using h)
        simpa [lookupCat, updateCat, hp', hcc] using this
      · have := ih (by simpa [lookupCat, hp] using h)
        simpa [lookupCat, updateCat, hp, hp'] using this

/-- After the tally updates, the candidate category's aggregate row holds its
previous value (0 when absent) plus the vote amount, provided the voter's
previous category vote was not for the candidate itself. -/
theorem lookupCat_categoryTallies_cand (cvs : List (String × Int)) (cat : String)
    (prev? : Option String) (va : Int) (h : prev? ≠ some cat) :
    lookupCat (categoryTallies cvs cat prev? va) cat =
      some ((lookupCat cvs cat).getD 0 + va) := by
  unfold categoryTallies
  rcases prev? with _ | prev
  · dsimp only
    rcases hcand : lookupCat cvs cat with _ | v
    · simp [hcand, lookupCat_insert_self _ _ _ hcand]
    · simp [hcand, lookupCat_update_self]
  · have hpc : cat ≠ prev := fun e => h (by rw [e])
    dsimp only
    rw [lookupCat_update_ne _ _ _ _ hpc]
    rcases hcand : lookupCat cvs cat with _ | v
    · simp [hcand, lookupCat_insert_self _ _ _ hcand]
    · simp [hcand, lookupCat_update_self]

/-- The tally updates leave every category other than the candidate and the
voter's previous category untouched. -/
theorem lookupCat_categoryTallies_other (cvs : List (String × Int)) (cat c : String)
    (prev? : Option String) (va : Int) (hc : c ≠ cat) (hp : prev? ≠ some c) :
    lookupCat (categoryTallies cvs cat prev? va) c = lookupCat cvs c := by
  unfold categoryTallies
  rcases prev? with _ | prev
  · dsimp only
    rcases hcand : lookupCat cvs cat with _ | v
    · simp [hcand, lookupCat_insert_ne _ _ _ _ hc]
    · simp [hcand, lookupCat_update_ne _ _ _ _ hc]
  · have hpc : c ≠ prev := fun e => hp (by rw [e])
    dsimp only
    rw [lookupCat_update_ne _ _ _ _ hpc]
    rcases hcand : lookupCat cvs cat with _ | v
    · simp [hcand, lookupCat_insert_ne _ _ _ _ hc]
    · simp [hcand, lookupCat_update_ne _ _ _ _ hc]

/-- A category other than the candidate that has no aggregate row before the
tally updates still has none afterwards. -/
theorem lookupCat_categoryTallies_none (cvs : List (String × Int)) (cat c : String)
    (prev? : Option String) (va : Int) (hc : c ≠ cat)
    (h : lookupCat cvs c = none) :
    lookupCat (categoryTallies cvs cat prev? va) c = none := by
  unfold categoryTallies
  have h1 : ∀ cv1 : List (String × Int), lookupCat cv1 c = none →
      lookupCat (match prev? with
        | some prev => updateCat cv1 prev (-va)
        | none => cv1) c = none := by
    intro cv1 h1
    rcases prev? with _ | prev
    · exact h1
    · exact lookupCat_update_none cv1 prev (-va) c h1
  apply h1
  rcases hcand : lookupCat cvs cat with _ | v
  · simp [hcand, lookupCat_insert_ne _ _ _ _ hc, h]
  · simp [hcand, lookupCat_update_ne _ _ _ _ hc, h]

/-- C3: after a category vote for candidate category `cat` (distinct from the
incumbent) is tallied, the segment's category is reassigned to `cat` exactly
when the candidate's new tally minus the incumbent category's tally in the
resulting state (baseline-seeded when it was absent) is at least
`max (ceil (votes / 2)) 2`, or the voter is VIP, or the voter owns the
segment. -/
theorem category_reassignment_rule (cfg : Config) (db : DB) (u cat : String)
    (s : Segment) (hseg : db.segment = some s) (hne : db.userCategoryVote ≠ some cat)
    (hlist : cat ∈ cfg.categoryList) (hskip : cat ∈ cfg.skippableCategories)
    (hdiff : s.category ≠ cat) :
    ((voteOnSponsorTime cfg db u none (some cat)).db.segment.map Segment.category
        = some cat ↔
      (max (ceilHalf s.votes) 2 ≤
          ((lookupCat (voteOnSponsorTime cfg db u none (some cat)).db.catVotes
              cat).getD 0 -
            (lookupCat (voteOnSponsorTime cfg db u none (some cat)).db.catVotes
              s.category).getD 0) ∨
        isVIPUser db u ∨ isOwnSubmissionUser db u)) := by
  unfold voteOnSponsorTime categoryVote
  dsimp only
  rw [if_neg hne, hseg]
  dsimp only
  rw [if_neg (not_not_intro hlist), if_neg (not_not_intro hskip),
    if_pos (Or.inr (Or.inr trivial))]
  set cv2 := categoryTallies db.catVotes cat db.userCategoryVote
    (if isVIPUser db u then 500 else 1) with hcv2
  have hT : lookupCat cv2 cat =
      some ((lookupCat db.catVotes cat).getD 0 + (if isVIPUser db u then 500 else 1)) := by
    rw [hcv2]
    exact lookupCat_categoryTallies_cand db.catVotes cat db.userCategoryVote _ hne
  rcases hcur : lookupCat cv2 s.category with _ | v
  · have hA : lookupCat (insertCat cv2 s.category
        (if isVIPUser db s.userID then 10000 else 1)) cat =
        some ((lookupCat db.catVotes cat).getD 0 + (if isVIPUser db u then 500 else 1)) := by
      rw [lookupCat_insert_ne _ _ _ _ (Ne.symm hdiff)]
      exact hT
    have hB : lookupCat (insertCat cv2 s.category
        (if isVIPUser db s.userID then 10000 else 1)) s.category =
        some (if isVIPUser db s.userID then 10000 else 1) :=
      lookupCat_insert_self _ _ _ hcur
    by_cases hcond :
        (ceilHalf s.votes ≤
            ((lookupCat db.catVotes cat).getD 0 + if isVIPUser db u then 500 else 1) -
              (if isVIPUser db s.userID then 10000 else 1) ∧
          2 ≤ ((lookupCat db.catVotes cat).getD 0 + if isVIPUser db u then 500 else 1) -
              (if isVIPUser db s.userID then 10000 else 1)) ∨
        isVIPUser db u ∨ isOwnSubmissionUser db u
    · simp [hA, hB, hcond]
    · simp [hA, hB, hcond, hdiff]
  · by_cases hcond :
        (ceilHalf s.votes ≤
            ((lookupCat db.catVotes cat).getD 0 + if isVIPUser db u then 500 else 1) - v ∧
          2 ≤ ((lookupCat db.catVotes cat).getD 0 + if isVIPUser db u then 500 else 1) - v) ∨
        isVIPUser db u ∨ isOwnSubmissionUser db u
    · simp [hT, hcur, hcond]
    · simp [hT, hcur, hcond, hdiff]

/-- Witness for C3: non-VIP non-owner vote for `"selfpromo"` on the example
segment of category `"sponsor"`; the margin 1 − 1 = 0 is below the threshold
2, so the category is not reassigned. -/
theorem category_reassignment_rule_witness :
    ¬ ((voteOnSponsorTime cfgEx dbEx "alice" none (some "selfpromo")).db.segment.map
        Segment.category = some "selfpromo") := by
  have h := category_reassignment_rule cfgEx dbEx "alice" "selfpromo" segEx rfl
    (by decide) (by decide) (by decide) (by decide)
  rw [h]
  decide

/-- C9: during a category vote for a candidate distinct from the incumbent
category, when the incumbent has no aggregate row the handler seeds a baseline
row for it — weight 10000 when the segment owner is VIP, 1 otherwise —
attributed to the segment owner, and the reassignment comparison uses this
baseline as the incumbent's tally; when the incumbent already has a row (and
the voter's previous vote was not for the incumbent) the row is untouched and
no baseline attribution is written. -/
theorem category_baseline_seeding (cfg : Config) (db : DB) (u cat : String)
    (s : Segment) (hseg : db.segment = some s) (hne : db.userCategoryVote ≠ some cat)
    (hlist : cat ∈ cfg.categoryList) (hskip : cat ∈ cfg.skippableCategories)
    (hdiff : s.category ≠ cat) :
    (lookupCat db.catVotes s.category = none →
      lookupCat (voteOnSponsorTime cfg db u none (some cat)).db.catVotes s.category =
        some (if isVIPUser db s.userID then 10000 else 1) ∧
      (voteOnSponsorTime cfg db u none (some cat)).db.baselineAttribution =
        some s.userID ∧
      ((voteOnSponsorTime cfg db u none (some cat)).db.segment.map Segment.category =
          some cat ↔
        max (ceilHalf s.votes) 2 ≤
            ((lookupCat (voteOnSponsorTime cfg db u none (some cat)).db.catVotes
                cat).getD 0 -
              (if isVIPUser db s.userID then 10000 else 1)) ∨
          isVIPUser db u ∨ isOwnSubmissionUser db u)) ∧
    (∀ v : Int, lookupCat db.catVotes s.category = some v →
      db.userCategoryVote ≠ some s.category →
      lookupCat (voteOnSponsorTime cfg db u none (some cat)).db.catVotes s.category =
        some v ∧
      (voteOnSponsorTime cfg db u none (some cat)).db.baselineAttribution =
        db.baselineAttribution) := by
  unfold voteOnSponsorTime categoryVote
  dsimp only
  rw [if_neg hne, hseg]
  dsimp only
  rw [if_neg (not_not_intro hlist), if_neg (not_not_intro hskip),
    if_pos (Or.inr (Or.inr trivial))]
  set cv2 := categoryTallies db.catVotes cat db.userCategoryVote
    (if isVIPUser db u then 500 else 1) with hcv2
  have hT : lookupCat cv2 cat =
      some ((lookupCat db.catVotes cat).getD 0 + (if isVIPUser db u then 500 else 1)) := by
    rw [hcv2]
    exact lookupCat_categoryTallies_cand db.catVotes cat db.userCategoryVote _ hne
  constructor
  · intro habs
    have hcur : lookupCat cv2 s.category = none := by
      rw [hcv2]
      exact lookupCat_categoryTallies_none db.catVotes cat s.category db.userCategoryVote
        _ hdiff habs
    rw [hcur]
    have hA : lookupCat (insertCat cv2 s.category
        (if isVIPUser db s.userID then 10000 else 1)) cat =
        some ((lookupCat db.catVotes cat).getD 0 + (if isVIPUser db u then 500 else 1)) := by
      rw [lookupCat_insert_ne _ _ _ _ (Ne.symm hdiff)]
      exact hT
    have hB : lookupCat (insertCat cv2 s.category
        (if isVIPUser db s.userID then 10000 else 1)) s.category =
        some (if isVIPUser db s.userID then 10000 else 1) :=
      lookupCat_insert_self _ _ _ hcur
    refine ⟨by simp [hB], by simp, ?_⟩
    by_cases hcond :
        (ceilHalf s.votes ≤
            ((lookupCat db.catVotes cat).getD 0 + if isVIPUser db u then 500 else 1) -
              (if isVIPUser db s.userID then 10000 else 1) ∧
          2 ≤ ((lookupCat db.catVotes cat).getD 0 + if isVIPUser db u then 500 else 1) -
              (if isVIPUser db s.userID then 10000 else 1)) ∨
        isVIPUser db u ∨ isOwnSubmissionUser db u
    · simp [hA, hB, hcond]
    · simp [hA, hB, hcond, hdiff]
  · intro v hv hprev
    have hcur : lookupCat cv2 s.category = some v := by
      rw [hcv2]
      rw [lookupCat_categoryTallies_other db.catVotes cat s.category db.userCategoryVote
        _ hdiff hprev]
      exact hv
    constructor
    · simp [hcur]
    · simp [hcur]

/-- Witness for C9: on the example database the incumbent `"sponsor"` has no
aggregate row; a category vote for `"selfpromo"` seeds it with baseline 1
(the owner is not VIP), attributed to the owner. -/
theorem category_baseline_seeding_witness :
    lookupCat (voteOnSponsorTime cfgEx dbEx "alice" none (some "selfpromo")).db.catVotes
        segEx.category = some (if isVIPUser dbEx segEx.userID then 10000 else 1) ∧
    (voteOnSponsorTime cfgEx dbEx "alice" none (some "selfpromo")).db.baselineAttribution =
      some segEx.userID := by
  have h := (category_baseline_seeding cfgEx dbEx "alice" "selfpromo" segEx rfl
    (by decide) (by decide) (by decide) (by decide)).1 rfl
  exact ⟨h.1, h.2.1⟩

/-- C4 counterexample: a category vote by a non-VIP voter on a lock-protected
segment is answered with the 403 status, yet the category tallies are still
mutated — the vote is not a no-op as the claim states. -/
theorem locked_category_vote_still_mutates :
    (voteOnSponsorTime cfgEx dbLocked "alice" none (some "selfpromo")).status = 403 ∧
    (voteOnSponsorTime cfgEx dbLocked "alice" none (some "selfpromo")).db.catVotes ≠
      dbLocked.catVotes := by
  decide

/-- C4 (amended): on a lock-protected segment, for a non-VIP voter and a vote
kind that is not a plain upvote, a *score* vote is rejected-but-acknowledged —
status 403 with the lock message and no database mutation (provided the
suppressed-segment and warning gates do not preempt the lock answer) — but a
*category* vote, while also answered with status 403, is still applied: the
candidate category's tally grows by the vote weight, because the category
path's eligibility condition is identically true. -/
theorem lock_rejection_behaviour :
    (∀ (cfg : Config) (db : DB) (u : String) (t : Int) (s : Segment),
      db.segment = some s → (s.locked = true ∨ db.videoCategoryLocked = true) →
      ¬ isVIPUser db u → (t = 0 ∨ t = 10 ∨ t = 11 ∨ t = 20) →
      ¬ (¬ isOwnSubmissionUser db u ∧ s.votes ≤ -2 ∧ t = 0) →
      activeWarningCount cfg db < cfg.maxNumberOfActiveWarnings →
      voteOnSponsorTime cfg db u (some t) none = ⟨403, some lockedMessage, db⟩) ∧
    (∀ (cfg : Config) (db : DB) (u cat : String) (s : Segment),
      db.segment = some s → (s.locked = true ∨ db.videoCategoryLocked = true) →
      ¬ isVIPUser db u → db.userCategoryVote ≠ some cat →
      cat ∈ cfg.categoryList → cat ∈ cfg.skippableCategories →
      (voteOnSponsorTime cfg db u none (some cat)).status = 403 ∧
      lookupCat (voteOnSponsorTime cfg db u none (some cat)).db.catVotes cat =
        some ((lookupCat db.catVotes cat).getD 0 + 1)) := by
  constructor
  · intro cfg db u t s hseg hlock hv htyp hgate hw
    have ht1 : t ≠ 1 := by rcases htyp with rfl | rfl | rfl | rfl <;> decide
    have hlock' : db.segment.map Segment.locked = some true ∨
        db.videoCategoryLocked = true := by
      rcases hlock with h | h
      · rw [hseg]; exact Or.inl (by simp [h])
      · exact Or.inr h
    have hfr : computeFinalResponse db u (some t) = ⟨403, some lockedMessage⟩ := by
      unfold computeFinalResponse
      rw [if_pos ⟨hv, by simpa using ht1, hlock'⟩]
    have h1 : ¬ (¬ isVIPUser db u ∧ ¬ isOwnSubmissionUser db u ∧
        segmentSuppressed db ∧ t = 1) := by
      rintro ⟨-, -, -, h⟩
      exact ht1 h
    have h0 : ¬ (¬ isVIPUser db u ∧ ¬ isOwnSubmissionUser db u ∧
        segmentSuppressed db ∧ t = 0) := by
      rintro ⟨-, ho, hsu, h⟩
      exact hgate ⟨ho, by simpa [segmentSuppressed, hseg] using hsu, h⟩
    have hw' : ¬ (cfg.maxNumberOfActiveWarnings ≤ activeWarningCount cfg db) := by
      omega
    unfold voteOnSponsorTime scoreVote
    dsimp only
    rw [if_neg h1, if_neg h0, if_neg hw', hfr]
    unfold scoreVoteCore
    rcases htyp with rfl | rfl | rfl | rfl
    · rw [show incrementInit 0 = some (-1) from rfl]
      dsimp only
      rw [hseg]
      dsimp only
      split_ifs <;> simp_all [applyScoreVote]
    · rw [show incrementInit 10 = some (-1) from rfl]
      dsimp only
      split_ifs <;> simp_all [applyScoreVote]
    · rw [show incrementInit 11 = some 1 from rfl]
      dsimp only
      split_ifs <;> simp_all [applyScoreVote]
    · rw [show incrementInit 20 = some 0 from rfl]
      dsimp only
      split_ifs <;> simp_all [applyScoreVote]
  · intro cfg db u cat s hseg hlock hv hne hlist hskip
    have hfr : computeFinalResponse db u none = ⟨403, some lockedMessage⟩ := by
      unfold computeFinalResponse
      refine if_pos ⟨hv, by simp, ?_⟩
      rcases hlock with h | h
      · rw [hseg]; exact Or.inl (by simp [h])
      · exact Or.inr h
    unfold voteOnSponsorTime categoryVote
    dsimp only
    rw [if_neg hne, hseg]
    dsimp only
    rw [if_neg (not_not_intro hlist), if_neg (not_not_intro hskip),
      if_pos (Or.inr (Or.inr trivial)), hfr]
    set cv2 := categoryTallies db.catVotes cat db.userCategoryVote
      (if isVIPUser db u then 500 else 1) with hcv2
    have hT : lookupCat cv2 cat =
        some ((lookupCat db.catVotes cat).getD 0 + (if isVIPUser db u then 500 else 1)) := by
      rw [hcv2]
      exact lookupCat_categoryTallies_cand db.catVotes cat db.userCategoryVote _ hne
    rw [if_neg hv] at hT
    refine ⟨rfl, ?_⟩
    by_cases hcc : s.category = cat
    · simp [hcc, hT]
    · rcases hcur : lookupCat cv2 s.category with _ | v
      · simp [hcur, lookupCat_insert_ne _ _ _ _ (Ne.symm hcc), hT]
      · simp [hcur, hT]

/-- Witness for C4 (amended), score part: a non-VIP extra downvote (type 10)
on the locked example segment is acknowledged with 403 and changes nothing. -/
theorem lock_rejection_behaviour_witness :
    voteOnSponsorTime cfgEx dbLocked "alice" (some 10) none =
      ⟨403, some lockedMessage, dbLocked⟩ :=
  lock_rejection_behaviour.1 cfgEx dbLocked "alice" 10 { segEx with locked := true }
    rfl (Or.inl rfl) (by decide) (by decide) (by decide) (by decide)

/-- C5 counterexample: a voter with three active warnings (the configured
maximum) still gets a category vote applied — the answer is 200 and the
database is mutated, so the warning rejection does not extend to category
votes. -/
theorem warned_category_vote_applies :
    cfgEx.maxNumberOfActiveWarnings ≤ activeWarningCount cfgEx dbWarned ∧
    (voteOnSponsorTime cfgEx dbWarned "alice" none (some "selfpromo")).status = 200 ∧
    (voteOnSponsorTime cfgEx dbWarned "alice" none (some "selfpromo")).db ≠
      dbWarned := by
  decide

/-- C5 (amended): a voter at or above the configured number of active warnings
has every *score* vote rejected entirely — status 403 with the warning message
and no state change — provided the suppressed-segment gate does not answer
first; *category* votes, however, never consult the warning count: their
outcome is identical for any warnings state (only the untouched `warnings`
rows differ). -/
theorem warning_rejection_behaviour :
    (∀ (cfg : Config) (db : DB) (u : String) (t : Int),
      cfg.maxNumberOfActiveWarnings ≤ activeWarningCount cfg db →
      ¬ (¬ isVIPUser db u ∧ ¬ isOwnSubmissionUser db u ∧ segmentSuppressed db ∧
        (t = 0 ∨ t = 1)) →
      voteOnSponsorTime cfg db u (some t) none = ⟨403, some warningMessage, db⟩) ∧
    (∀ (cfg : Config) (db : DB) (u cat : String) (ws : List Warning),
      voteOnSponsorTime cfg { db with warnings := ws } u none (some cat) =
        ⟨(voteOnSponsorTime cfg db u none (some cat)).status,
         (voteOnSponsorTime cfg db u none (some cat)).message,
         { (voteOnSponsorTime cfg db u none (some cat)).db with warnings := ws }⟩) := by
  constructor
  · intro cfg db u t hw hgate
    have h1 : ¬ (¬ isVIPUser db u ∧ ¬ isOwnSubmissionUser db u ∧
        segmentSuppressed db ∧ t = 1) := by
      rintro ⟨a, b, c, d⟩
      exact hgate ⟨a, b, c, Or.inr d⟩
    have h0 : ¬ (¬ isVIPUser db u ∧ ¬ isOwnSubmissionUser db u ∧
        segmentSuppressed db ∧ t = 0) := by
      rintro ⟨a, b, c, d⟩
      exact hgate ⟨a, b, c, Or.inl d⟩
    unfold voteOnSponsorTime scoreVote
    dsimp only
    rw [if_neg h1, if_neg h0, if_pos hw]
  · intro cfg db u cat ws
    obtain ⟨seg, vr, vip, hs, sb, ip, w, nw, vcl, cvs, ucv, ba⟩ := db
    rcases seg with _ | s
    · unfold voteOnSponsorTime categoryVote computeFinalResponse isVIPUser
        isOwnSubmissionUser
      dsimp only
      split_ifs <;> rfl
    · unfold voteOnSponsorTime categoryVote computeFinalResponse isVIPUser
        isOwnSubmissionUser
      dsimp only
      split_ifs <;> rfl

/-- Witness for C5 (amended), score part: the warned voter's plain upvote on
the example segment is rejected with the warning message and no state change. -/
theorem warning_rejection_behaviour_witness :
    voteOnSponsorTime cfgEx dbWarned "alice" (some 1) none =
      ⟨403, some warningMessage, dbWarned⟩ :=
  warning_rejection_behaviour.1 cfgEx dbWarned "alice" 1 (by decide) (by decide)

/-- When the applied delta `inc - old` is zero, the write phase leaves both
counters of the segment unchanged (it may still rewrite the ledger row and the
lock flag). -/
theorem applyScoreVote_counters_zero (db : DB) (u : String) (fr : FinalResponse)
    (fam : Bool) (inc nt old : Int) (h : inc - old = 0) :
    (applyScoreVote db u fr fam inc nt old).db.segment.map Segment.votes =
      db.segment.map Segment.votes ∧
    (applyScoreVote db u fr fam inc nt old).db.segment.map Segment.incorrectVotes =
      db.segment.map Segment.incorrectVotes := by
  unfold applyScoreVote
  dsimp only
  cases fam <;> rcases hseg : db.segment with _ | s <;> split_ifs <;> simp_all

/-- The write phase never changes the VIP registry nor the owner recorded on
the segment. -/
theorem applyScoreVote_preserves_identity (db : DB) (u : String) (fr : FinalResponse)
    (fam : Bool) (inc nt old : Int) :
    (applyScoreVote db u fr fam inc nt old).db.vipUsers = db.vipUsers ∧
    (applyScoreVote db u fr fam inc nt old).db.segment.map Segment.userID =
      db.segment.map Segment.userID := by
  unfold applyScoreVote
  dsimp only
  cases fam <;> rcases hseg : db.segment with _ | s <;> split_ifs <;> simp_all

/-- A score vote never changes the VIP registry nor the owner of the segment. -/
theorem voteOnSponsorTime_preserves_identity (cfg : Config) (db : DB) (u : String)
    (t : Int) :
    (voteOnSponsorTime cfg db u (some t) none).db.vipUsers = db.vipUsers ∧
    (voteOnSponsorTime cfg db u (some t) none).db.segment.map Segment.userID =
      db.segment.map Segment.userID := by
  unfold voteOnSponsorTime scoreVote
  dsimp only
  split_ifs
  · exact ⟨rfl, rfl⟩
  · exact ⟨rfl, rfl⟩
  · exact ⟨rfl, rfl⟩
  unfold scoreVoteCore
  rcases hi : incrementInit t with _ | i
  · exact ⟨rfl, rfl⟩
  dsimp only
  set M : Int := (match db.votesRow with
    | none => (0 : Int)
    | some vt => oldIncrementAmount t vt) with hM
  by_cases hplain : t = 0 ∨ t = 1
  · rw [if_pos hplain]
    by_cases hpriv : (isVIPUser db u ∨ isOwnSubmissionUser db u) ∧ i < 0
    · rw [if_pos hpriv]
      rcases hseg : db.segment with _ | s
      · dsimp only
        rw [hseg]
        exact ⟨rfl, rfl⟩
      · dsimp only
        have h := applyScoreVote_preserves_identity db u
          (computeFinalResponse db u (some t)) true (-(s.votes + 2 - M))
          (-(s.votes + 2 - M)) M
        rw [hseg] at h
        exact h
    · rw [if_neg hpriv]
      exact applyScoreVote_preserves_identity db u (computeFinalResponse db u (some t))
        true i t M
  · rw [if_neg hplain]
    by_cases hpriv : isVIPUser db u ∨ isOwnSubmissionUser db u
    · rw [if_pos hpriv]
      exact applyScoreVote_preserves_identity db u (computeFinalResponse db u (some t))
        false (500 * i) (if 500 * i < 0 then 12 else 13) M
    · rw [if_neg hpriv]
      exact applyScoreVote_preserves_identity db u (computeFinalResponse db u (some t))
        false i t M

/-- An unrecognised vote type leaves the database untouched. -/
theorem voteOnSponsorTime_unrecognised (cfg : Config) (db : DB) (u : String)
    (t : Int) (hi : incrementInit t = none) :
    (voteOnSponsorTime cfg db u (some t) none).db = db := by
  unfold voteOnSponsorTime scoreVote scoreVoteCore
  dsimp only
  rw [hi]
  split_ifs <;> rfl

/-- Counter fixed-point lemma: a score vote leaves both counters unchanged
whenever (a) in the non-reweighted cases the recorded old weight equals the
initial increment, (b) in the VIP/own plain-downvote reweighting case the
segment already sits at the −2 floor, and (c) the incorrect-family
reweighting (VIP/own with type 10, 11 or 20) is excluded. -/
theorem voteOnSponsorTime_counters_fixed (cfg : Config) (db : DB) (u : String)
    (t i : Int) (hi : incrementInit t = some i)
    (h1 : (¬ (t = 0 ∨ t = 1) ∨ ¬ (isVIPUser db u ∨ isOwnSubmissionUser db u) ∨ 0 ≤ i) →
      (match db.votesRow with
        | none => (0 : Int)
        | some vt => oldIncrementAmount t vt) = i)
    (h2 : ∀ s : Segment, db.segment = some s → (t = 0 ∨ t = 1) →
      (isVIPUser db u ∨ isOwnSubmissionUser db u) → i < 0 → s.votes = -2)
    (h3 : (t = 0 ∨ t = 1) ∨ ¬ (isVIPUser db u ∨ isOwnSubmissionUser db u)) :
    (voteOnSponsorTime cfg db u (some t) none).db.segment.map Segment.votes =
      db.segment.map Segment.votes ∧
    (voteOnSponsorTime cfg db u (some t) none).db.segment.map Segment.incorrectVotes =
      db.segment.map Segment.incorrectVotes := by
  unfold voteOnSponsorTime scoreVote
  dsimp only
  split_ifs with g1 g2 g3
  · exact ⟨rfl, rfl⟩
  · exact ⟨rfl, rfl⟩
  · exact ⟨rfl, rfl⟩
  unfold scoreVoteCore
  rw [hi]
  dsimp only
  set M : Int := (match db.votesRow with
    | none => (0 : Int)
    | some vt => oldIncrementAmount t vt) with hM
  by_cases hplain : t = 0 ∨ t = 1
  · rw [if_pos hplain]
    by_cases hpriv : (isVIPUser db u ∨ isOwnSubmissionUser db u) ∧ i < 0
    · rw [if_pos hpriv]
      rcases hseg : db.segment with _ | s
      · dsimp only
        rw [hseg]
        exact ⟨rfl, rfl⟩
      · dsimp only
        have hs2 : s.votes = -2 := h2 s hseg hplain hpriv.1 hpriv.2
        have hz : -(s.votes + 2 - M) - M = 0 := by rw [hs2]; ring
        have hcount := applyScoreVote_counters_zero db u
          (computeFinalResponse db u (some t)) true (-(s.votes + 2 - M))
          (-(s.votes + 2 - M)) M hz
        rw [hseg] at hcount
        exact hcount
    · rw [if_neg hpriv]
      have hold : M = i := by
        rcases not_and_or.mp hpriv with hx | hx
        · exact h1 (Or.inr (Or.inl hx))
        · exact h1 (Or.inr (Or.inr (by omega)))
      exact applyScoreVote_counters_zero db u (computeFinalResponse db u (some t))
        true i t M (by omega)
  · rw [if_neg hplain]
    have hnp : ¬ (isVIPUser db u ∨ isOwnSubmissionUser db u) := h3.resolve_left hplain
    rw [if_neg hnp]
    have hold : M = i := h1 (Or.inl hplain)
    exact applyScoreVote_counters_zero db u (computeFinalResponse db u (some t))
      false i t M (by omega)

/-- The write phase either changes nothing or stores exactly the given new
type in the ledger row. -/
theorem applyScoreVote_shape (db : DB) (u : String) (fr : FinalResponse)
    (fam : Bool) (inc nt old : Int) :
    (applyScoreVote db u fr fam inc nt old).db = db ∨
    (applyScoreVote db u fr fam inc nt old).db.votesRow = some nt := by
  unfold applyScoreVote
  dsimp only
  split_ifs <;> first | exact Or.inl rfl | exact Or.inr rfl

/-- The write phase of a reweighted plain downvote either changes nothing or
drives the segment's score to the −2 floor. -/
theorem applyScoreVote_floor (db : DB) (u : String) (fr : FinalResponse)
    (nt old : Int) (s : Segment) (hseg : db.segment = some s) :
    (applyScoreVote db u fr true (-(s.votes + 2 - old)) nt old).db = db ∨
    (applyScoreVote db u fr true (-(s.votes + 2 - old)) nt old).db.segment.map
      Segment.votes = some (-2) := by
  unfold applyScoreVote
  dsimp only
  split_ifs
  · refine Or.inr ?_
    rw [hseg]
    simp
  · refine Or.inr ?_
    rw [hseg]
    simp
  · refine Or.inr ?_
    rw [hseg]
    simp
  · exact Or.inl rfl

/-- Shape of the database after a first score vote of a recognised type, when
the voter is not a VIP/owner casting an incorrect-family vote: either nothing
changed, or the ledger now stores exactly the requested type (non-reweighted
case), or the vote was a VIP/own plain downvote and the segment's score now
sits at the −2 floor. -/
theorem voteOnSponsorTime_first_shape (cfg : Config) (db : DB) (u : String)
    (t i : Int) (hi : incrementInit t = some i)
    (h3 : (t = 0 ∨ t = 1) ∨ ¬ (isVIPUser db u ∨ isOwnSubmissionUser db u)) :
    (voteOnSponsorTime cfg db u (some t) none).db = db ∨
    ((voteOnSponsorTime cfg db u (some t) none).db.votesRow = some t ∧
      ¬ ((t = 0 ∨ t = 1) ∧ (isVIPUser db u ∨ isOwnSubmissionUser db u) ∧ i < 0)) ∨
    ((t = 0 ∨ t = 1) ∧ (isVIPUser db u ∨ isOwnSubmissionUser db u) ∧ i < 0 ∧
      (voteOnSponsorTime cfg db u (some t) none).db.segment.map Segment.votes =
        some (-2)) := by
  unfold voteOnSponsorTime scoreVote
  dsimp only
  split_ifs with g1 g2 g3
  · exact Or.inl rfl
  · exact Or.inl rfl
  · exact Or.inl rfl
  unfold scoreVoteCore
  rw [hi]
  dsimp only
  set M : Int := (match db.votesRow with
    | none => (0 : Int)
    | some vt => oldIncrementAmount t vt) with hM
  by_cases hplain : t = 0 ∨ t = 1
  · rw [if_pos hplain]
    by_cases hpriv : (isVIPUser db u ∨ isOwnSubmissionUser db u) ∧ i < 0
    · rw [if_pos hpriv]
      rcases hseg : db.segment with _ | s
      · exact Or.inl rfl
      · dsimp only
        rcases applyScoreVote_floor db u (computeFinalResponse db u (some t))
          (-(s.votes + 2 - M)) M s hseg with h | h
        · exact Or.inl h
        · exact Or.inr (Or.inr ⟨hplain, hpriv.1, hpriv.2, h⟩)
    · rw [if_neg hpriv]
      rcases applyScoreVote_shape db u (computeFinalResponse db u (some t))
        true i t M with h | h
      · exact Or.inl h
      · exact Or.inr (Or.inl ⟨h, fun hc => hpriv ⟨hc.2.1, hc.2.2⟩⟩)
  · rw [if_neg hplain]
    have hnp : ¬ (isVIPUser db u ∨ isOwnSubmissionUser db u) := h3.resolve_left hplain
    rw [if_neg hnp]
    rcases applyScoreVote_shape db u (computeFinalResponse db u (some t))
      false i t M with h | h
    · exact Or.inl h
    · exact Or.inr (Or.inl ⟨h, fun hc => hplain hc.1⟩)

/-- C2 counterexample: a VIP casting the identical eligible type-11
("incorrect" upvote) score vote twice moves the incorrect counter from 500
to 999 — the second application's delta is 499, not zero (the stored type 13
of the first vote is read back as weight 1 because the new request's type
is 11). -/
theorem vip_identical_incorrect_vote_not_idempotent :
    (voteOnSponsorTime cfgEx dbEx "vip" (some 11) none).db.segment.map
        Segment.incorrectVotes = some 500 ∧
    (voteOnSponsorTime cfgEx (voteOnSponsorTime cfgEx dbEx "vip" (some 11) none).db
        "vip" (some 11) none).db.segment.map Segment.incorrectVotes = some 999 ∧
    (999 : Int) - 500 ≠ 0 := by
  decide

/-- C2 (amended): casting the identical score vote twice in succession applies
a net change of zero to both segment counters after the second vote, whenever
the vote kind is plain (type 0 or 1) or the voter is neither VIP nor the
segment owner (the excluded VIP/owner incorrect-family combinations are the
ones refuted by the counterexample). -/
theorem second_identical_vote_net_zero (cfg : Config) (db : DB) (u : String)
    (t : Int)
    (h : t = 0 ∨ t = 1 ∨ (¬ isVIPUser db u ∧ ¬ isOwnSubmissionUser db u)) :
    (voteOnSponsorTime cfg (voteOnSponsorTime cfg db u (some t) none).db u (some t)
        none).db.segment.map Segment.votes =
      (voteOnSponsorTime cfg db u (some t) none).db.segment.map Segment.votes ∧
    (voteOnSponsorTime cfg (voteOnSponsorTime cfg db u (some t) none).db u (some t)
        none).db.segment.map Segment.incorrectVotes =
      (voteOnSponsorTime cfg db u (some t) none).db.segment.map
        Segment.incorrectVotes := by
  have h3 : (t = 0 ∨ t = 1) ∨ ¬ (isVIPUser db u ∨ isOwnSubmissionUser db u) := by
    rcases h with rfl | rfl | ⟨hv, ho⟩
    · exact Or.inl (Or.inl rfl)
    · exact Or.inl (Or.inr rfl)
    · exact Or.inr fun hx => hx.elim hv ho
  rcases hi : incrementInit t with _ | i
  · have e1 := voteOnSponsorTime_unrecognised cfg db u t hi
    simp only [e1]
    exact ⟨trivial, trivial⟩
  · have hP := voteOnSponsorTime_preserves_identity cfg db u t
    have hVIP2 : isVIPUser (voteOnSponsorTime cfg db u (some t) none).db u ↔
        isVIPUser db u := by
      unfold isVIPUser
      rw [hP.1]
    have hOwn2 : isOwnSubmissionUser (voteOnSponsorTime cfg db u (some t) none).db u ↔
        isOwnSubmissionUser db u := by
      unfold isOwnSubmissionUser
      rw [hP.2]
    have h3' : (t = 0 ∨ t = 1) ∨
        ¬ (isVIPUser (voteOnSponsorTime cfg db u (some t) none).db u ∨
          isOwnSubmissionUser (voteOnSponsorTime cfg db u (some t) none).db u) := by
      rcases h3 with hx | hx
      · exact Or.inl hx
      · exact Or.inr fun hy => hx (hy.imp hVIP2.mp hOwn2.mp)
    rcases voteOnSponsorTime_first_shape cfg db u t i hi h3 with
      e1 | ⟨hrow, hnp⟩ | ⟨hplain, hpriv, hineg, hvotes⟩
    · simp only [e1]
      exact ⟨trivial, trivial⟩
    · refine voteOnSponsorTime_counters_fixed cfg _ u t i hi (fun _ => ?_) ?_ h3'
      · rw [hrow]
        exact oldIncrementAmount_self t i hi
      · intro s₂ hs₂ hpl hpr hin
        exact absurd ⟨hpl, hpr.imp hVIP2.mp hOwn2.mp, hin⟩ hnp
    · refine voteOnSponsorTime_counters_fixed cfg _ u t i hi ?_ ?_ (Or.inl hplain)
      · intro hante
        rcases hante with hx | hx | hx
        · exact absurd hplain hx
        · exact absurd (hpriv.imp hVIP2.mpr hOwn2.mpr) hx
        · omega
      · intro s₂ hs₂ _ _ _
        rw [hs₂] at hvotes
        simpa using hvotes

/-- Witness for C2 (amended): a plain upvote cast twice on the example
database leaves both counters where the first vote put them. -/
theorem second_identical_vote_net_zero_witness :
    (voteOnSponsorTime cfgEx (voteOnSponsorTime cfgEx dbEx "alice" (some 1) none).db
        "alice" (some 1) none).db.segment.map Segment.votes =
      (voteOnSponsorTime cfgEx dbEx "alice" (some 1) none).db.segment.map
        Segment.votes ∧
    (voteOnSponsorTime cfgEx (voteOnSponsorTime cfgEx dbEx "alice" (some 1) none).db
        "alice" (some 1) none).db.segment.map Segment.incorrectVotes =
      (voteOnSponsorTime cfgEx dbEx "alice" (some 1) none).db.segment.map
        Segment.incorrectVotes :=
  second_identical_vote_net_zero cfgEx dbEx "alice" 1 (Or.inr (Or.inl rfl))

end VoteSB
